import Mathlib

/-!
Verification model of the MCP Social Media API server
(`src/server/src`: `models.py`, `schemas.py`, `middleware/auth.py`,
`middleware/rate_limit.py`, `middleware/error_handler.py`,
`logging_config.py`, `routers/posts.py`).

Python strings are modelled as `List Char`; datetimes as `Nat` ticks.
Fallible request handling is modelled with `Except`, where the error type
enumerates exactly the error conditions this application produces and is
rendered to an HTTP error response by the handlers of `error_handler.py`.
-/

namespace MCPSocial

/-- Python `str`, modelled as a list of characters. -/
abbrev Str := List Char

/-- Shorthand: the character list of a Lean string literal. -/
def lit (s : String) : Str := s.toList

/-! ## Data model (`models.py`) -/

/-- `models.py:20` — `Team` row: unique `id` (primary key), unique `name`. -/
structure Team where
  id : Str
  name : Str
deriving Repr, DecidableEq

/-- `models.py:47` — `ApiKey` row: `id`, unique secret `key`, owning `team_id`. -/
structure ApiKey where
  id : Str
  key : Str
  team_id : Str
deriving Repr, DecidableEq

/-- `models.py:31` — `Post` row.  `timestamp` is modelled as a `Nat` tick. -/
structure Post where
  id : Str
  team_id : Str
  author_name : Str
  content : Str
  tags : List Str
  timestamp : Nat
  parent_post_id : Option Str
  deleted : Bool
deriving Repr, DecidableEq

/-- The relational store: the three tables of `models.py`. -/
structure Store where
  teams : List Team
  api_keys : List ApiKey
  posts : List Post
deriving Repr, DecidableEq

/-! ## JSON values and the error envelope (`error_handler.py`) -/

/-- A JSON value, for error-envelope bodies. -/
inductive Json where
  | null : Json
  | str : Str → Json
  | num : Int → Json
  | bool : Bool → Json
  | arr : List Json → Json
  | obj : List (Str × Json) → Json
deriving Repr

/-- Whether a JSON value is an object. -/
def Json.isObj : Json → Bool
  | .obj _ => true
  | _ => false

/-- One entry of the `field_errors` list built by
`validation_exception_handler` (`error_handler.py:94`):
`{"field": ..., "message": ..., "type": ...}`. -/
structure FieldError where
  field : Str
  message : Str
  type : Str
deriving Repr, DecidableEq

/-- The closed set of error conditions this application produces, one
constructor per raise site / registered exception class (`main.py:84`). -/
inductive AppError where
  /-- `auth.py:95` — `HTTPException(401, "Invalid or missing API key")`. -/
  | unauthorized : AppError
  /-- `auth.py:131` — `HTTPException(403, ...)` for a team-name mismatch. -/
  | forbidden (team : Str) : AppError
  /-- `posts.py:236` and `posts.py:296` — post not found in team (404). -/
  | postNotFound (postId team : Str) : AppError
  /-- `posts.py:145` — parent post not found in team (404). -/
  | parentNotFound (parentId team : Str) : AppError
  /-- `rate_limit.py:65` — `HTTPException(429, ...)` with envelope detail. -/
  | rateLimited (limit : Str) : AppError
  /-- FastAPI `RequestValidationError` (422), handled at `error_handler.py:80`. -/
  | validation (fieldErrors : List FieldError) : AppError
  /-- SQLAlchemy `IntegrityError` (409), handled at `error_handler.py:133`. -/
  | integrity (dbError : Str) : AppError
  /-- Other SQLAlchemy errors (500), handled at `error_handler.py:145`. -/
  | database (dbError : Str) : AppError
  /-- Any other exception (500), handled at `error_handler.py:169`;
  carries the exception type name and message. -/
  | internal (excType excMessage : Str) : AppError
deriving Repr, DecidableEq

/-- The `{error, code, details}` envelope of `error_handler.py:32`. -/
structure Envelope where
  error : Str
  code : Str
  details : Json
deriving Repr

/-- A rendered JSON error response: status code, body `{"detail": envelope}`,
and response headers. -/
structure ErrResponse where
  status : Nat
  envelope : Envelope
  headers : List (Str × Str)
deriving Repr

/-- `error_handler.py:17` — `create_error_envelope`; the handlers never pass a
`status_code` key inside `details`, so the mutation
`envelope["details"]["status_code"] = status_code` is an append. -/
def create_error_envelope (error code : Str) (details : List (Str × Json))
    (status_code : Nat) : Envelope :=
  { error := error, code := code,
    details := Json.obj (details ++ [(lit "status_code", Json.num status_code)]) }

/-- `error_handler.py:204` — `_get_error_code_for_status`. -/
def get_error_code_for_status (status_code : Nat) : Str :=
  if status_code == 400 then lit "BAD_REQUEST"
  else if status_code == 401 then lit "UNAUTHORIZED"
  else if status_code == 403 then lit "FORBIDDEN"
  else if status_code == 404 then lit "NOT_FOUND"
  else if status_code == 405 then lit "METHOD_NOT_ALLOWED"
  else if status_code == 409 then lit "CONFLICT"
  else if status_code == 422 then lit "VALIDATION_ERROR"
  else if status_code == 429 then lit "RATE_LIMITED"
  else if status_code == 500 then lit "INTERNAL_ERROR"
  else if status_code == 502 then lit "BAD_GATEWAY"
  else if status_code == 503 then lit "SERVICE_UNAVAILABLE"
  else lit "UNKNOWN_ERROR"

/-- JSON form of one field error (`error_handler.py:97`). -/
def fieldErrorJson (fe : FieldError) : Json :=
  Json.obj [(lit "field", Json.str fe.field),
            (lit "message", Json.str fe.message),
            (lit "type", Json.str fe.type)]

/-- The exception handlers registered in `main.py:84-88`, as a single map from
an error condition to the JSON error response the client receives.
String-detail `HTTPException`s go through `http_exception_handler`
(`error_handler.py:40`, envelope built by `create_error_envelope`); the
rate-limit `HTTPException` already carries an envelope dict and is passed
through as-is (`error_handler.py:52`, no `status_code` added);
`RequestValidationError`, `SQLAlchemyError` and generic exceptions go through
their dedicated handlers. -/
def render_error : AppError → ErrResponse
  | .unauthorized =>
    { status := 401,
      envelope := create_error_envelope (lit "Invalid or missing API key")
        (get_error_code_for_status 401) [] 401,
      headers := [(lit "WWW-Authenticate", lit "Bearer")] }
  | .forbidden team =>
    { status := 403,
      envelope := create_error_envelope
        (lit "API key does not have access to team '" ++ team ++ lit "'")
        (get_error_code_for_status 403) [] 403,
      headers := [] }
  | .postNotFound postId team =>
    { status := 404,
      envelope := create_error_envelope
        (lit "Post '" ++ postId ++ lit "' not found in team '" ++ team ++ lit "'")
        (get_error_code_for_status 404) [] 404,
      headers := [] }
  | .parentNotFound parentId team =>
    { status := 404,
      envelope := create_error_envelope
        (lit "Parent post '" ++ parentId ++ lit "' not found in team '" ++ team ++ lit "'")
        (get_error_code_for_status 404) [] 404,
      headers := [] }
  | .rateLimited limit =>
    { status := 429,
      envelope :=
        { error := lit "Rate limit exceeded. Please try again later.",
          code := lit "RATE_LIMITED",
          details := Json.obj [(lit "retry_after", Json.num 60),
                               (lit "limit", Json.str limit)] },
      headers := [(lit "Retry-After", lit "60")] }
  | .validation fieldErrors =>
    { status := 422,
      envelope := create_error_envelope
        (lit "Validation failed. Please check your input data.")
        (lit "VALIDATION_ERROR")
        [(lit "field_errors", Json.arr (fieldErrors.map fieldErrorJson)),
         (lit "error_count", Json.num fieldErrors.length)]
        422,
      headers := [] }
  | .integrity dbError =>
    { status := 409,
      envelope := create_error_envelope
        (lit "Database constraint violation. The requested operation conflicts with existing data.")
        (lit "INTEGRITY_ERROR")
        [(lit "constraint_type", Json.str (lit "integrity_constraint")),
         (lit "database_error", Json.str dbError)]
        409,
      headers := [] }
  | .database dbError =>
    { status := 500,
      envelope := create_error_envelope
        (lit "A database error occurred. Please try again later.")
        (lit "DATABASE_ERROR")
        [(lit "database_error", Json.str dbError)]
        500,
      headers := [] }
  | .internal excType excMessage =>
    { status := 500,
      envelope := create_error_envelope
        (lit "An unexpected error occurred. Please try again later.")
        (lit "INTERNAL_ERROR")
        [(lit "exception_type", Json.str excType),
         (lit "exception_message", Json.str excMessage)]
        500,
      headers := [] }

/-! ## API-key masking (`logging_config.py:212`) -/

/-- `logging_config.py:212` — `mask_api_key`: `"****"` when the key is falsy or
shorter than 8 characters, otherwise `key[:4] + "..." + key[-4:]`. -/
def mask_api_key (api_key : Str) : Str :=
  if api_key.isEmpty || api_key.length < 8 then lit "****"
  else api_key.take 4 ++ lit "..." ++ api_key.drop (api_key.length - 4)

/-! ## Authentication (`middleware/auth.py`) -/

/-- `auth.py:20` — `AuthenticatedRequest`: the request context attached after
a successful key lookup. -/
structure AuthenticatedRequest where
  team_id : Str
  team_name : Str
  api_key : Str
deriving Repr, DecidableEq

/-- The literal `"Bearer "` of `auth.py:42` / `auth.py:45`. -/
def bearerTag : Str := lit "Bearer "

/-- `auth.py:51` — the join
`select(ApiKey, Team).join(Team, ApiKey.team_id == Team.id).where(ApiKey.key == api_key)`
followed by `.first()`: the first api-key row whose `key` matches and whose
owning team row exists. -/
def lookup_api_key (st : Store) (api_key : Str) : Option (ApiKey × Team) :=
  (st.api_keys.filterMap (fun ak =>
    if ak.key == api_key then
      (st.teams.find? (fun t => t.id == ak.team_id)).map (fun t => (ak, t))
    else Option.none)).head?

/-- `auth.py:29` — `get_current_team`: extract and validate the bearer token
from the `Authorization` header; `Option.none` models both an absent header
and `None` (authentication failure). -/
def get_current_team (st : Store) (authorization : Option Str) :
    Option AuthenticatedRequest :=
  match authorization with
  | Option.none => Option.none
  | Option.some authz =>
    if authz.isEmpty then Option.none
    else if !(bearerTag.isPrefixOf authz) then Option.none
    else
      let api_key := authz.drop 7
      if api_key.isEmpty then Option.none
      else
        match lookup_api_key st api_key with
        | Option.none => Option.none
        | Option.some (ak, team) =>
          Option.some { team_id := team.id, team_name := team.name, api_key := ak.key }

/-- `auth.py:83` — `require_authentication`: 401 on any authentication
failure, identically for every failure mode. -/
def require_authentication (st : Store) (authorization : Option Str) :
    Except AppError AuthenticatedRequest :=
  match get_current_team st authorization with
  | Option.none => .error .unauthorized
  | Option.some a => .ok a

/-- `auth.py:103` — `require_team_access`: authentication followed by the
path-team check `auth_info.team_name != team_name` (403 on mismatch). -/
def require_team_access (st : Store) (authorization : Option Str)
    (team_name : Str) : Except AppError AuthenticatedRequest := do
  let a ← require_authentication st authorization
  if a.team_name ≠ team_name then .error (.forbidden team_name)
  else .ok a

/-! ## Request/response schemas (`schemas.py`) -/

/-- `schemas.py:39` — `PostCreate`, the request-body schema for post
creation as committed: its fields are `author`, `content`, `tags` and
`parentPostId` (not `author_name` / `parent_post_id`). -/
structure PostCreate where
  author : Str
  content : Str
  tags : Option (List Str)
  parentPostId : Option Str
deriving Repr, DecidableEq

/-- A Python value held in a pydantic model field, as needed for
`PostCreate`. -/
inductive PyValue where
  | str : Str → PyValue
  | strList : List Str → PyValue
  | pyNone : PyValue
deriving Repr, DecidableEq

/-- Python truthiness for `PyValue`. -/
def PyValue.truthy : PyValue → Bool
  | .str s => !s.isEmpty
  | .strList xs => !xs.isEmpty
  | .pyNone => false

/-- The string held by a `PyValue`, if any. -/
def PyValue.asStr : PyValue → Option Str
  | .str s => Option.some s
  | _ => Option.none

/-- Python attribute lookup on a `PostCreate` instance: defined exactly on
the fields declared in `schemas.py:39-77`; any other attribute name is
absent (pydantic raises `AttributeError`). -/
def PostCreate.lookupAttr (p : PostCreate) (name : Str) : Option PyValue :=
  if name == lit "author" then Option.some (.str p.author)
  else if name == lit "content" then Option.some (.str p.content)
  else if name == lit "tags" then
    Option.some (match p.tags with
      | Option.some xs => .strList xs
      | Option.none => .pyNone)
  else if name == lit "parentPostId" then
    Option.some (match p.parentPostId with
      | Option.some s => .str s
      | Option.none => .pyNone)
  else Option.none

/-- An `AttributeError` escaping a handler reaches
`generic_exception_handler` (`error_handler.py:169`, registered in
`main.py:88`) and becomes a 500 `INTERNAL_ERROR` response. -/
def attributeError (name : Str) : AppError :=
  .internal (lit "AttributeError")
    (lit "'PostCreate' object has no attribute '" ++ name ++ lit "'")

/-- Python attribute access `post_data.<name>`: the field's value, or an
`AttributeError` for a name that is not a declared field. -/
def PostCreate.getattr (p : PostCreate) (name : Str) : Except AppError PyValue :=
  match p.lookupAttr name with
  | Option.some v => .ok v
  | Option.none => .error (attributeError name)

/-- `posts.py:76-86` (also `:180` and `:239`) — the dict built from a `Post`
row for `PostSchema(**post_dict)`; `post.tags or []` is the identity here
because `tags` is always a list in the model. -/
structure PostDict where
  id : Str
  author_name : Str
  content : Str
  tags : List Str
  timestamp : Nat
  parent_post_id : Option Str
  deleted : Bool
  team_name : Str
deriving Repr, DecidableEq

/-- Build the response dict of `posts.py:76-86` from a post row. -/
def toPostDict (team_name : Str) (p : Post) : PostDict :=
  { id := p.id, author_name := p.author_name, content := p.content,
    tags := p.tags, timestamp := p.timestamp,
    parent_post_id := p.parent_post_id, deleted := p.deleted,
    team_name := team_name }

/-- `schemas.py:105` — `RemotePost`, the element type of
`PostsResponse.posts` as committed. -/
structure RemotePost where
  postId : Str
  author : Str
  content : Str
  tags : List Str
  parentPostId : Option Str
  createdAtSeconds : Nat
deriving Repr, DecidableEq

/-- `schemas.py:116` — `PostsResponse` as committed: fields `posts`
(a list of `RemotePost`) and `nextOffset`; there are no `total` or
`has_more` fields. -/
structure PostsResponseModel where
  posts : List RemotePost
  nextOffset : Option Str
deriving Repr, DecidableEq

/-- `schemas.py:141` — `PostResponse` as committed: required fields
`postId`, `author`, `content`, `createdAt`; there is no `post` field. -/
structure PostResponseModel where
  postId : Str
  author : Str
  content : Str
  tags : List Str
  parentPostId : Option Str
  createdAtSeconds : Nat
deriving Repr, DecidableEq

/-- Pydantic validation of `PostsResponse(posts=posts, total=..., has_more=...)`
(`posts.py:91`) against the committed schema (`schemas.py:116`): the extra
keyword arguments `total` and `has_more` are ignored (`extra='ignore'`),
and each element of `posts` is a `schemas.Post` instance, which is neither
a dict nor a `RemotePost`, so validating it against `List[RemotePost]`
raises `ValidationError`; only the empty list validates.  The escaping
`ValidationError` reaches `generic_exception_handler` (500). -/
def validate_posts_response (posts : List PostDict) :
    Except AppError PostsResponseModel :=
  match posts with
  | [] => .ok { posts := [], nextOffset := Option.none }
  | _ =>
    .error (.internal (lit "ValidationError")
      (lit "Input should be a valid dictionary or instance of RemotePost"))

/-- Pydantic validation of `PostResponse(post=PostSchema(**post_dict))`
(`posts.py:191` and `posts.py:250`) against the committed schema
(`schemas.py:141`): the keyword `post` is an ignored extra, and the
required fields `postId`, `author`, `content` and `createdAt` are all
missing, so construction always raises `ValidationError`, which reaches
`generic_exception_handler` (500). -/
def validate_post_response (_post : PostDict) :
    Except AppError PostResponseModel :=
  .error (.internal (lit "ValidationError")
    (lit "4 validation errors for PostResponse"))

/-! ## Posts router (`routers/posts.py`) -/

/-- `posts.py:56-60` — the count query: non-deleted posts of the team. -/
def count_posts (st : Store) (team_id : Str) : Nat :=
  (st.posts.filter (fun p => p.team_id == team_id && !p.deleted)).length

/-- Insert a post into a timestamp-descending list, keeping it ordered. -/
def insertDesc (p : Post) : List Post → List Post
  | [] => [p]
  | q :: qs =>
    if q.timestamp < p.timestamp then p :: q :: qs else q :: insertDesc p qs

/-- `order_by(Post.timestamp.desc())` (`posts.py:66`): stable sort by
timestamp, newest first. -/
def sortByTimestampDesc : List Post → List Post
  | [] => []
  | p :: ps => insertDesc p (sortByTimestampDesc ps)

/-- `posts.py:63-71` — the page query: non-deleted posts of the team,
ordered by timestamp descending, then `offset`/`limit` applied. -/
def posts_page (st : Store) (team_id : Str) (limit offset : Nat) : List Post :=
  ((sortByTimestampDesc
      (st.posts.filter (fun p => p.team_id == team_id && !p.deleted))).drop
    offset).take limit

/-- `posts.py:229-230` (and `:289-290`) — the single-post query:
`Post.id == post_id AND Post.team_id == team_id AND Post.deleted == False`,
then `.scalar_one_or_none()`. -/
def find_post (st : Store) (post_id team_id : Str) : Option Post :=
  st.posts.find? (fun p => p.id == post_id && p.team_id == team_id && !p.deleted)

/-- `posts.py:36` — `list_posts`: auth, count, page, response dicts,
`has_more`, then `PostsResponse(...)` construction (whose committed schema
discards `total`/`has_more` and rejects non-empty `posts`). -/
def list_posts (st : Store) (authorization : Option Str) (team : Str)
    (limit offset : Nat) : Except AppError PostsResponseModel := do
  let auth ← require_team_access st authorization team
  let total := count_posts st auth.team_id
  let page := posts_page st auth.team_id limit offset
  let posts := page.map (toPostDict auth.team_name)
  let _has_more := decide ((offset + limit) < total)
  validate_posts_response posts

/-- `posts.py:208` — `get_post`: auth, single-post query, 404 when absent,
otherwise `PostResponse(post=...)` construction (which always fails
against the committed schema). -/
def get_post (st : Store) (authorization : Option Str) (team post_id : Str) :
    Except AppError PostResponseModel := do
  let auth ← require_team_access st authorization team
  match find_post st post_id auth.team_id with
  | Option.none => .error (.postNotFound post_id team)
  | Option.some p => validate_post_response (toPostDict auth.team_name p)

/-- The posts table after `post.deleted = True; await db.commit()`
(`posts.py:299-300`): the row with the found post's primary key has its
`deleted` flag set; every other row is untouched. -/
def markDeleted (posts : List Post) (post_id : Str) : List Post :=
  posts.map (fun q => if q.id == post_id then { q with deleted := true } else q)

/-- `posts.py:267` — `delete_post`: auth, single-post query, 404 when
absent, otherwise set `deleted = True` on the found row (by primary key)
and commit; 204 with no body on success. -/
def delete_post (st : Store) (authorization : Option Str) (team post_id : Str) :
    Except AppError Store := do
  let auth ← require_team_access st authorization team
  match find_post st post_id auth.team_id with
  | Option.none => .error (.postNotFound post_id team)
  | Option.some p => .ok { st with posts := markDeleted st.posts p.id }

/-- `posts.py:113` — `create_post`.  Returns the store after the request
(unchanged unless a commit happened) together with the response outcome.
Control flow as committed: auth; `if post_data.parent_post_id:`
(`posts.py:133`) — an attribute access on a field `PostCreate` does not
declare; then the parent existence check (`posts.py:134-148`); then the
row insert reading `post_data.author_name` (`posts.py:153`) and the
response construction.  `new_id` and `now` stand for the server-assigned
uuid (`models.py:15`) and timestamp (`models.py:39`). -/
def create_post (st : Store) (authorization : Option Str) (team : Str)
    (post_data : PostCreate) (new_id : Str) (now : Nat) :
    Store × Except AppError PostResponseModel :=
  match require_team_access st authorization team with
  | .error e => (st, .error e)
  | .ok auth =>
    match post_data.getattr (lit "parent_post_id") with
    | .error e => (st, .error e)
    | .ok ppid =>
      let parentCheck : Except AppError Unit :=
        if ppid.truthy then
          match ppid.asStr with
          | Option.some s =>
            match find_post st s auth.team_id with
            | Option.some _ => .ok ()
            | Option.none => .error (.parentNotFound s team)
          | Option.none => .error (.parentNotFound [] team)
        else .ok ()
      match parentCheck with
      | .error e => (st, .error e)
      | .ok _ =>
        match post_data.getattr (lit "author_name") with
        | .error e => (st, .error e)
        | .ok authorV =>
          let new_post : Post :=
            { id := new_id, team_id := auth.team_id,
              author_name := (authorV.asStr).getD [],
              content := post_data.content,
              tags := (post_data.tags).getD [],
              timestamp := now,
              parent_post_id := ppid.asStr,
              deleted := false }
          let st' := { st with posts := st.posts ++ [new_post] }
          (st', validate_post_response (toPostDict auth.team_name new_post))

/-! ## The API surface as a transition system -/

/-- One API request against the posts router. -/
inductive Op where
  | list (authorization : Option Str) (team : Str) (limit offset : Nat) : Op
  | create (authorization : Option Str) (team : Str) (body : PostCreate)
      (new_id : Str) (now : Nat) : Op
  | get (authorization : Option Str) (team : Str) (post_id : Str) : Op
  | delete (authorization : Option Str) (team : Str) (post_id : Str) : Op

/-- The store after one API request (reads leave it unchanged; a failed
delete commits nothing). -/
def apply_op (st : Store) : Op → Store
  | .list _ _ _ _ => st
  | .get _ _ _ => st
  | .create authorization team body new_id now =>
    (create_post st authorization team body new_id now).1
  | .delete authorization team post_id =>
    match delete_post st authorization team post_id with
    | .ok st' => st'
    | .error _ => st

/-- The store after a sequence of API requests. -/
def run_ops (st : Store) (ops : List Op) : Store :=
  ops.foldl apply_op st

/-! ## Concrete fixture: two teams, one key each, one post under team A -/

/-- Fixture team A. -/
def teamA : Team := { id := lit "team-a-id", name := lit "teamA" }

/-- Fixture team B. -/
def teamB : Team := { id := lit "team-b-id", name := lit "teamB" }

/-- Fixture api key for team A. -/
def keyA : ApiKey := { id := lit "key-a-id", key := lit "alpha-key-0001", team_id := lit "team-a-id" }

/-- Fixture api key for team B. -/
def keyB : ApiKey := { id := lit "key-b-id", key := lit "beta-key-0002", team_id := lit "team-b-id" }

/-- Fixture post, owned by team A, not deleted. -/
def postA : Post :=
  { id := lit "post-a-id", team_id := lit "team-a-id", author_name := lit "alice",
    content := lit "hello world", tags := [lit "greeting"], timestamp := 5,
    parent_post_id := Option.none, deleted := false }

/-- Fixture store. -/
def baseStore : Store :=
  { teams := [teamA, teamB], api_keys := [keyA, keyB], posts := [postA] }

/-- `Authorization` header carrying team A's key. -/
def hdrA : Option Str := Option.some (lit "Bearer alpha-key-0001")

/-- `Authorization` header carrying team B's key. -/
def hdrB : Option Str := Option.some (lit "Bearer beta-key-0002")

/-- A fully valid creation body for the committed `PostCreate` schema:
`author` 5 chars, `content` 5 chars, no tags, no parent. -/
def validBody : PostCreate :=
  { author := lit "alice", content := lit "hello", tags := Option.none,
    parentPostId := Option.none }

/-- A creation body whose `parentPostId` names a nonexistent post. -/
def replyBody : PostCreate :=
  { author := lit "alice", content := lit "hello", tags := Option.none,
    parentPostId := Option.some (lit "missing-parent-id") }

/-! ## Claim theorems -/

/-- C2 (code bug): a valid, authenticated, authorized create request is
answered with a 500 `INTERNAL_ERROR` — the handler's very first use of the
body, `if post_data.parent_post_id:` (`posts.py:133`), is an attribute the
committed `PostCreate` schema (`schemas.py:39-77`, fields `author`,
`content`, `tags`, `parentPostId`) does not declare — and no post is
persisted; the claimed 201-with-created-post outcome never happens. -/
theorem c2_valid_create_returns_500_and_persists_nothing :
    (create_post baseStore hdrA (lit "teamA") validBody (lit "new-post-id") 100).1
      = baseStore ∧
    (create_post baseStore hdrA (lit "teamA") validBody (lit "new-post-id") 100).2
      = .error (attributeError (lit "parent_post_id")) ∧
    (render_error (attributeError (lit "parent_post_id"))).status = 500 ∧
    (render_error (attributeError (lit "parent_post_id"))).envelope.code
      = lit "INTERNAL_ERROR" :=
  ⟨rfl, rfl, rfl, rfl⟩

/-- C3 (code bug): an authenticated, authorized list request with
`limit = 10`, `offset = 0` against a team holding one non-deleted post is
answered with a 500 `INTERNAL_ERROR`: `posts.py:91` constructs
`PostsResponse(posts=..., total=..., has_more=...)`, but the committed
`PostsResponse` (`schemas.py:116`) has fields `posts : List[RemotePost]`
and `nextOffset` only, so `total`/`has_more` are discarded and the
non-empty `posts` list fails validation; the claimed
200-with-total-and-has_more outcome never happens. -/
theorem c3_list_with_posts_returns_500 :
    list_posts baseStore hdrA (lit "teamA") 10 0
      = .error (.internal (lit "ValidationError")
          (lit "Input should be a valid dictionary or instance of RemotePost")) ∧
    (render_error (.internal (lit "ValidationError")
        (lit "Input should be a valid dictionary or instance of RemotePost"))).status
      = 500 :=
  ⟨rfl, rfl⟩

/-- C7 (code bug): a create request whose parent id does not resolve is
answered with the 500 `AttributeError` response, not with the claimed 404
naming the parent: the parent-existence check of `posts.py:134-148` is
unreachable because the attribute access `post_data.parent_post_id` at
`posts.py:133` fails first.  No post is persisted. -/
theorem c7_unresolvable_parent_returns_500_not_404 :
    (create_post baseStore hdrA (lit "teamA") replyBody (lit "new-post-id") 100).2
      = .error (attributeError (lit "parent_post_id")) ∧
    (create_post baseStore hdrA (lit "teamA") replyBody (lit "new-post-id") 100).2
      ≠ .error (.parentNotFound (lit "missing-parent-id") (lit "teamA")) ∧
    (create_post baseStore hdrA (lit "teamA") replyBody (lit "new-post-id") 100).1
      = baseStore ∧
    (render_error (attributeError (lit "parent_post_id"))).status = 500 :=
  ⟨rfl, by
    have h1 : (create_post baseStore hdrA (lit "teamA") replyBody
        (lit "new-post-id") 100).2 = .error (attributeError (lit "parent_post_id")) := rfl
    rw [h1]
    simp [attributeError], rfl, rfl⟩

/-- C10: the 429 response produced by `custom_rate_limit_handler`
(`rate_limit.py:50-73`) carries the constant `Retry-After: 60` header and
`details.retry_after = 60` for every violated-limit description — the
hint is the literal `retry_after = 60` of `rate_limit.py:62`, not a
computed remaining-window time. -/
theorem c10_rate_limit_retry_after_constant (limit : Str) :
    (render_error (.rateLimited limit)).status = 429 ∧
    (render_error (.rateLimited limit)).headers
      = [(lit "Retry-After", lit "60")] ∧
    (render_error (.rateLimited limit)).envelope.details
      = Json.obj [(lit "retry_after", Json.num 60), (lit "limit", Json.str limit)] ∧
    (render_error (.rateLimited limit)).envelope.code = lit "RATE_LIMITED" :=
  ⟨rfl, rfl, rfl, rfl⟩

/-- When no stored api key matches the token, the join of `auth.py:51`
returns no row. -/
theorem lookup_api_key_eq_none (st : Store) (tok : Str)
    (h : ∀ ak ∈ st.api_keys, ak.key ≠ tok) : lookup_api_key st tok = Option.none := by
  unfold lookup_api_key
  have hnil : st.api_keys.filterMap (fun ak =>
      if ak.key == tok then
        (st.teams.find? (fun t => t.id == ak.team_id)).map (fun t => (ak, t))
      else Option.none) = [] := by
    rw [List.filterMap_eq_nil_iff]
    intro ak hak
    have hf : (ak.key == tok) = false := beq_eq_false_iff_ne.mpr (h ak hak)
    simp [hf]
  rw [hnil]
  rfl

/-- C6: a missing `Authorization` header, a header without the
`Bearer `-prefix form, and a well-formed bearer token matching no stored
api key all produce the one identical authentication failure
(`auth.py:29-100`: `get_current_team` returns `None` in each case and
`require_authentication` maps every `None` to the same 401 response), so
the response does not reveal whether the key exists; a token that does
resolve but to a team whose name differs from the path's team produces the
distinct 403 authorization failure of `auth.py:131`, whose content depends
only on the requested team name. -/
theorem c6_auth_failure_indistinguishable (st : Store) (team : Str) :
    (require_team_access st Option.none team = .error .unauthorized) ∧
    (∀ hdr : Str, bearerTag.isPrefixOf hdr = false →
      require_team_access st (Option.some hdr) team = .error .unauthorized) ∧
    (∀ tok : Str, (∀ ak ∈ st.api_keys, ak.key ≠ tok) →
      require_team_access st (Option.some (bearerTag ++ tok)) team
        = .error .unauthorized) ∧
    (∀ hdr : Str, ∀ auth : AuthenticatedRequest,
      require_authentication st (Option.some hdr) = .ok auth →
      auth.team_name ≠ team →
      require_team_access st (Option.some hdr) team = .error (.forbidden team)) ∧
    (render_error .unauthorized).status = 401 ∧
    (render_error (.forbidden team)).status = 403 ∧
    (render_error (.forbidden team)).envelope.code
      ≠ (render_error .unauthorized).envelope.code := by
  refine ⟨rfl, ?_, ?_, ?_, rfl, rfl, by
    show lit "FORBIDDEN" ≠ lit "UNAUTHORIZED"
    decide⟩
  · intro hdr h
    cases he : hdr.isEmpty <;>
      simp [require_team_access, require_authentication, get_current_team, he, h,
        Except.bind, bind]
  · intro tok h
    cases tok with
    | nil => rfl
    | cons c cs =>
      have hl : lookup_api_key st (c :: cs) = Option.none :=
        lookup_api_key_eq_none st (c :: cs) h
      have key : get_current_team st (Option.some (bearerTag ++ (c :: cs)))
          = Option.none := by
        have hred : get_current_team st (Option.some (bearerTag ++ (c :: cs)))
            = (match lookup_api_key st (c :: cs) with
               | Option.none => Option.none
               | Option.some (ak, t) =>
                 Option.some { team_id := t.id, team_name := t.name, api_key := ak.key }) := rfl
        rw [hred, hl]
      simp [require_team_access, require_authentication, key, Except.bind, bind]
  · intro hdr auth hA hne
    simp [require_team_access, Except.bind, bind, hA, hne]

/-- C6 witness: on the concrete store, a non-bearer header, an unknown
bearer token and team B's valid key on team A's path produce the
responses the theorem asserts. -/
theorem c6_auth_failure_indistinguishable_witness :
    (require_team_access baseStore (Option.some (lit "alpha-key-0001")) (lit "teamA")
      = .error .unauthorized) ∧
    (require_team_access baseStore (Option.some (bearerTag ++ lit "no-such-key")) (lit "teamA")
      = .error .unauthorized) ∧
    (require_team_access baseStore (Option.some (lit "Bearer beta-key-0002")) (lit "teamA")
      = .error (.forbidden (lit "teamA"))) :=
  ⟨(c6_auth_failure_indistinguishable baseStore (lit "teamA")).2.1
      (lit "alpha-key-0001") (by decide),
   (c6_auth_failure_indistinguishable baseStore (lit "teamA")).2.2.1
      (lit "no-such-key") (by decide),
   (c6_auth_failure_indistinguishable baseStore (lit "teamA")).2.2.2.1
      (lit "Bearer beta-key-0002")
      { team_id := lit "team-b-id", team_name := lit "teamB", api_key := lit "beta-key-0002" }
      rfl (by decide)⟩

/-- C8: every error response any handler produces carries the uniform
envelope of `error_handler.py`: a non-empty human message in `error`, a
non-empty machine token in `code`, and a JSON object in `details`;
validation failures additionally carry the per-field
`{field, message, type}` list built at `error_handler.py:94-104`. -/
theorem c8_error_envelope_invariant (e : AppError) :
    (render_error e).envelope.error ≠ [] ∧
    (render_error e).envelope.code ≠ [] ∧
    (render_error e).envelope.details.isObj = true ∧
    (∀ fieldErrors : List FieldError, e = .validation fieldErrors →
      (render_error e).envelope.details
        = Json.obj [(lit "field_errors", Json.arr (fieldErrors.map fieldErrorJson)),
                    (lit "error_count", Json.num fieldErrors.length),
                    (lit "status_code", Json.num 422)]) := by
  cases e with
  | unauthorized => exact ⟨by decide, by decide, rfl, fun fe h => by cases h⟩
  | forbidden team =>
    exact ⟨List.append_ne_nil_of_left_ne_nil
        (List.append_ne_nil_of_left_ne_nil (by decide) _) _,
      by show lit "FORBIDDEN" ≠ []; decide, rfl, fun fe h => by cases h⟩
  | postNotFound postId team =>
    exact ⟨List.append_ne_nil_of_left_ne_nil (List.append_ne_nil_of_left_ne_nil
        (List.append_ne_nil_of_left_ne_nil
          (List.append_ne_nil_of_left_ne_nil (by decide) _) _) _) _,
      by show lit "NOT_FOUND" ≠ []; decide, rfl, fun fe h => by cases h⟩
  | parentNotFound parentId team =>
    exact ⟨List.append_ne_nil_of_left_ne_nil (List.append_ne_nil_of_left_ne_nil
        (List.append_ne_nil_of_left_ne_nil
          (List.append_ne_nil_of_left_ne_nil (by decide) _) _) _) _,
      by show lit "NOT_FOUND" ≠ []; decide, rfl, fun fe h => by cases h⟩
  | rateLimited limit =>
    exact ⟨by show lit "Rate limit exceeded. Please try again later." ≠ []; decide,
      by show lit "RATE_LIMITED" ≠ []; decide, rfl, fun fe h => by cases h⟩
  | validation fieldErrors =>
    exact ⟨by show lit "Validation failed. Please check your input data." ≠ []; decide,
      by show lit "VALIDATION_ERROR" ≠ []; decide, rfl,
      fun fe h => by cases h; rfl⟩
  | integrity dbError =>
    exact ⟨by
        show lit "Database constraint violation. The requested operation conflicts with existing data." ≠ []
        decide,
      by show lit "INTEGRITY_ERROR" ≠ []; decide, rfl, fun fe h => by cases h⟩
  | database dbError =>
    exact ⟨by show lit "A database error occurred. Please try again later." ≠ []; decide,
      by show lit "DATABASE_ERROR" ≠ []; decide, rfl, fun fe h => by cases h⟩
  | internal excType excMessage =>
    exact ⟨by show lit "An unexpected error occurred. Please try again later." ≠ []; decide,
      by show lit "INTERNAL_ERROR" ≠ []; decide, rfl, fun fe h => by cases h⟩

/-- C8 witness: the envelope of a concrete one-field validation failure. -/
theorem c8_error_envelope_invariant_witness :
    (render_error (.validation
        [{ field := lit "body -> author", message := lit "Field required",
           type := lit "missing" }])).envelope.details
      = Json.obj [(lit "field_errors",
          Json.arr [fieldErrorJson
            { field := lit "body -> author", message := lit "Field required",
              type := lit "missing" }]),
          (lit "error_count", Json.num 1),
          (lit "status_code", Json.num 422)] :=
  (c8_error_envelope_invariant (.validation
      [{ field := lit "body -> author", message := lit "Field required",
         type := lit "missing" }])).2.2.2 _ rfl

/-- C9: the masked key written to authentication-failure logs
(`logging_config.py:212`, used at `auth.py:62`) exposes at most the first
4 and last 4 characters of the key: short keys all mask to `"****"`, long
keys mask to `first4 ++ "..." ++ last4`, the mask is a function of those
two fragments alone, and no key is recoverable from its mask — every key
shares its mask with a different key. -/
theorem c9_mask_api_key_hides_key :
    (∀ k : Str, k.length < 8 → mask_api_key k = lit "****") ∧
    (∀ k : Str, 8 ≤ k.length →
      mask_api_key k = k.take 4 ++ lit "..." ++ k.drop (k.length - 4)) ∧
    (∀ k₁ k₂ : Str, 8 ≤ k₁.length → 8 ≤ k₂.length → k₁.take 4 = k₂.take 4 →
      k₁.drop (k₁.length - 4) = k₂.drop (k₂.length - 4) →
      mask_api_key k₁ = mask_api_key k₂) ∧
    (∀ k : Str, ∃ kOther : Str, kOther ≠ k ∧
      mask_api_key kOther = mask_api_key k) := by
  have p1 : ∀ k : Str, k.length < 8 → mask_api_key k = lit "****" := by
    intro k h
    have hc : (k.isEmpty || decide (k.length < 8)) = true := by simp [h]
    simp [mask_api_key, hc]
  have p2 : ∀ k : Str, 8 ≤ k.length →
      mask_api_key k = k.take 4 ++ lit "..." ++ k.drop (k.length - 4) := by
    intro k h
    have h0 : ¬ (k.length < 8) := by omega
    have he : k.isEmpty = false := by
      rw [List.isEmpty_eq_false]
      intro hk
      rw [hk] at h
      simp at h
    simp [mask_api_key, he, h0]
  refine ⟨p1, p2, ?_, ?_⟩
  · intro k₁ k₂ h₁ h₂ ht hd
    rw [p2 k₁ h₁, p2 k₂ h₂, ht, hd]
  · intro k
    by_cases hk : k.length < 8
    · cases k with
      | nil => exact ⟨lit "x", by decide, by decide⟩
      | cons a as =>
        refine ⟨[], by simp, ?_⟩
        rw [p1 [] (by decide), p1 (a :: as) hk]
    · have h8 : 8 ≤ k.length := by omega
      have h4 : (k.take 4).length = 4 := by rw [List.length_take]; omega
      have hlen : (k.take 4 ++ 'x' :: k.drop 4).length = k.length + 1 := by
        rw [List.length_append, h4, List.length_cons, List.length_drop]
        omega
      refine ⟨k.take 4 ++ 'x' :: k.drop 4, ?_, ?_⟩
      · intro h
        have hL := congrArg List.length h
        rw [hlen] at hL
        omega
      · have he1 : (k.take 4 ++ 'x' :: k.drop 4).take 4 = k.take 4 := by
          rw [List.take_append_of_le_length (by rw [h4]), List.take_take]
          simp
        have hgroup : k.take 4 ++ 'x' :: k.drop 4 = (k.take 4 ++ ['x']) ++ k.drop 4 :=
          List.append_cons _ _ _
        have h5 : (k.take 4 ++ ['x']).length = 5 := by
          rw [List.length_append, h4]
          rfl
        have he2 : (k.take 4 ++ 'x' :: k.drop 4).drop
            ((k.take 4 ++ 'x' :: k.drop 4).length - 4) = k.drop (k.length - 4) := by
          rw [hlen, hgroup]
          have harith : k.length + 1 - 4 = (k.take 4 ++ ['x']).length + (k.length - 8) := by
            rw [h5]; omega
          rw [harith, List.drop_append, List.drop_drop]
          congr 1
          omega
        rw [p2 _ (by rw [hlen]; omega), p2 k h8, he1, he2]

/-- C9 witness: the 8-character key `"abcdefgh"` and the distinct
9-character key `"abcdxefgh"` mask identically. -/
theorem c9_mask_api_key_hides_key_witness :
    mask_api_key (lit "abcdxefgh") = mask_api_key (lit "abcdefgh") ∧
    mask_api_key (lit "short") = lit "****" :=
  ⟨c9_mask_api_key_hides_key.2.2.1 (lit "abcdxefgh") (lit "abcdefgh")
      (by decide) (by decide) (by decide) (by decide),
   c9_mask_api_key_hides_key.1 (lit "short") (by decide)⟩

/-- Authentication reads only the `api_keys` and `teams` tables, so it is
unaffected by changes to the `posts` table. -/
theorem auth_ignores_posts (st : Store) (ps : List Post) (authorization : Option Str)
    (team : Str) :
    require_team_access { st with posts := ps } authorization team
      = require_team_access st authorization team := rfl

/-- After `markDeleted posts pid`, no row with id `pid` passes the
non-deleted single-post query again. -/
theorem find_post_after_markDeleted (st : Store) (pid tid : Str) :
    find_post { st with posts := markDeleted st.posts pid } pid tid = Option.none := by
  unfold find_post markDeleted
  rw [List.find?_eq_none]
  intro x hx
  obtain ⟨q, hq, rfl⟩ := List.mem_map.mp hx
  cases hqid : q.id == pid <;> simp [hqid]

/-- C4: with authentication and team authorization granted, deleting a
post id that the team holds non-deleted succeeds (204, no body), marks
exactly that row deleted while leaving every other row in place, and
makes both a subsequent get and a second delete of the same id answer the
404 `Post not found` error; deleting an id the team does not hold
non-deleted (nonexistent, deleted, or another team's) answers that same
404 and, the handler returning an error before any commit, leaves the
store unchanged. -/
theorem c4_delete_semantics (st : Store) (authorization : Option Str)
    (team post_id : Str) (auth : AuthenticatedRequest)
    (hauth : require_team_access st authorization team = .ok auth) :
    (∀ p : Post, find_post st post_id auth.team_id = Option.some p →
      delete_post st authorization team post_id
          = .ok { st with posts := markDeleted st.posts post_id } ∧
      { p with deleted := true } ∈ markDeleted st.posts post_id ∧
      (∀ q ∈ st.posts, q.id ≠ post_id → q ∈ markDeleted st.posts post_id) ∧
      get_post { st with posts := markDeleted st.posts post_id } authorization team post_id
          = .error (.postNotFound post_id team) ∧
      delete_post { st with posts := markDeleted st.posts post_id } authorization team post_id
          = .error (.postNotFound post_id team)) ∧
    (find_post st post_id auth.team_id = Option.none →
      delete_post st authorization team post_id
          = .error (.postNotFound post_id team)) ∧
    (render_error (.postNotFound post_id team)).status = 404 := by
  refine ⟨?_, ?_, rfl⟩
  · intro p hfind
    have hpred := List.find?_some (by simpa [find_post] using hfind)
    simp only [Bool.and_eq_true, beq_iff_eq, Bool.not_eq_true'] at hpred
    obtain ⟨⟨hid, hteam⟩, hdel⟩ := hpred
    subst hid
    have hp : p ∈ st.posts := List.mem_of_find?_eq_some (by simpa [find_post] using hfind)
    have hauth2 : require_team_access { st with posts := markDeleted st.posts p.id }
        authorization team = .ok auth := hauth
    have hnone := find_post_after_markDeleted st p.id auth.team_id
    refine ⟨?_, ?_, ?_, ?_, ?_⟩
    · simp [delete_post, Except.bind, bind, hauth, hfind]
    · simpa [markDeleted] using List.mem_map_of_mem
        (fun q => if q.id == p.id then { q with deleted := true } else q) hp
    · intro q hq hqne
      have hf : (q.id == p.id) = false := beq_eq_false_iff_ne.mpr hqne
      simpa [markDeleted, hf] using List.mem_map_of_mem
        (fun r => if r.id == p.id then { r with deleted := true } else r) hq
    · simp [get_post, Except.bind, bind, hauth2, hnone]
    · simp [delete_post, Except.bind, bind, hauth2, hnone]
  · intro hnone
    simp [delete_post, Except.bind, bind, hauth, hnone]

/-- C4 witness: on the concrete store, team A deletes its post; the get
and the repeated delete then answer 404. -/
theorem c4_delete_semantics_witness :
    delete_post baseStore hdrA (lit "teamA") (lit "post-a-id")
      = .ok { baseStore with posts := markDeleted baseStore.posts (lit "post-a-id") } ∧
    get_post { baseStore with posts := markDeleted baseStore.posts (lit "post-a-id") }
        hdrA (lit "teamA") (lit "post-a-id")
      = .error (.postNotFound (lit "post-a-id") (lit "teamA")) ∧
    delete_post { baseStore with posts := markDeleted baseStore.posts (lit "post-a-id") }
        hdrA (lit "teamA") (lit "post-a-id")
      = .error (.postNotFound (lit "post-a-id") (lit "teamA")) :=
  have h := (c4_delete_semantics baseStore hdrA (lit "teamA") (lit "post-a-id")
    { team_id := lit "team-a-id", team_name := lit "teamA", api_key := lit "alpha-key-0001" }
    rfl).1 postA rfl
  ⟨h.1, h.2.2.2.1, h.2.2.2.2⟩

/-- One post row evolving across API operations: the id and every column
except `deleted` are unchanged, and `deleted` can only go from false to
true. -/
def PostEvolved (p q : Post) : Prop :=
  q.id = p.id ∧ q.team_id = p.team_id ∧ q.author_name = p.author_name ∧
  q.content = p.content ∧ q.tags = p.tags ∧ q.timestamp = p.timestamp ∧
  q.parent_post_id = p.parent_post_id ∧ (p.deleted = true → q.deleted = true)

/-- `PostEvolved` is reflexive. -/
theorem postEvolved_refl (p : Post) : PostEvolved p p :=
  ⟨rfl, rfl, rfl, rfl, rfl, rfl, rfl, fun h => h⟩

/-- `PostEvolved` is transitive. -/
theorem postEvolved_trans {p q r : Post} (h₁ : PostEvolved p q)
    (h₂ : PostEvolved q r) : PostEvolved p r := by
  obtain ⟨a₁, b₁, c₁, d₁, e₁, f₁, g₁, m₁⟩ := h₁
  obtain ⟨a₂, b₂, c₂, d₂, e₂, f₂, g₂, m₂⟩ := h₂
  exact ⟨a₂.trans a₁, b₂.trans b₁, c₂.trans c₁, d₂.trans d₁, e₂.trans e₁,
    f₂.trans f₁, g₂.trans g₁, fun h => m₂ (m₁ h)⟩

/-- A store evolving across API operations: the `teams` and `api_keys`
tables are untouched, no post row is physically removed, and every
pre-existing post row survives with `PostEvolved`. -/
def StoreEvolves (st st' : Store) : Prop :=
  st'.teams = st.teams ∧ st'.api_keys = st.api_keys ∧
  st.posts.length ≤ st'.posts.length ∧
  ∀ p ∈ st.posts, ∃ q ∈ st'.posts, PostEvolved p q

/-- `StoreEvolves` is reflexive. -/
theorem storeEvolves_refl (st : Store) : StoreEvolves st st :=
  ⟨rfl, rfl, Nat.le_refl _, fun p hp => ⟨p, hp, postEvolved_refl p⟩⟩

/-- `StoreEvolves` is transitive. -/
theorem storeEvolves_trans {s₁ s₂ s₃ : Store} (h₁ : StoreEvolves s₁ s₂)
    (h₂ : StoreEvolves s₂ s₃) : StoreEvolves s₁ s₃ := by
  obtain ⟨t₁, k₁, l₁, e₁⟩ := h₁
  obtain ⟨t₂, k₂, l₂, e₂⟩ := h₂
  refine ⟨t₂.trans t₁, k₂.trans k₁, Nat.le_trans l₁ l₂, fun p hp => ?_⟩
  obtain ⟨q, hq, hpq⟩ := e₁ p hp
  obtain ⟨r, hr, hqr⟩ := e₂ q hq
  exact ⟨r, hr, postEvolved_trans hpq hqr⟩

/-- `create_post` never changes the store: the handler's first use of the
body (`posts.py:133`) raises before `db.add`/`db.commit` are reached. -/
theorem create_post_fst (st : Store) (authorization : Option Str) (team : Str)
    (body : PostCreate) (new_id : Str) (now : Nat) :
    (create_post st authorization team body new_id now).1 = st := by
  unfold create_post
  cases require_team_access st authorization team <;> rfl

/-- Marking one row deleted evolves every row of the posts table. -/
theorem markDeleted_evolves (posts : List Post) (pid : Str) :
    ∀ p ∈ posts, ∃ q ∈ markDeleted posts pid, PostEvolved p q := by
  intro p hp
  refine ⟨if p.id == pid then { p with deleted := true } else p,
    List.mem_map_of_mem _ hp, ?_⟩
  cases p.id == pid <;>
    simp [PostEvolved]

/-- One API operation evolves the store. -/
theorem apply_op_evolves (st : Store) (op : Op) : StoreEvolves st (apply_op st op) := by
  cases op with
  | list authorization team limit offset => exact storeEvolves_refl st
  | get authorization team post_id => exact storeEvolves_refl st
  | create authorization team body new_id now =>
    rw [show apply_op st (.create authorization team body new_id now)
        = (create_post st authorization team body new_id now).1 from rfl,
      create_post_fst]
    exact storeEvolves_refl st
  | delete authorization team post_id =>
    show StoreEvolves st
      (match delete_post st authorization team post_id with
       | .ok st' => st'
       | .error _ => st)
    cases hA : require_team_access st authorization team with
    | error e => simp [delete_post, Except.bind, bind, hA, storeEvolves_refl]
    | ok auth =>
      cases hF : find_post st post_id auth.team_id with
      | none => simp [delete_post, Except.bind, bind, hA, hF, storeEvolves_refl]
      | some p =>
        simp only [delete_post, Except.bind, bind, hA, hF]
        exact ⟨rfl, rfl, by simp [markDeleted], markDeleted_evolves st.posts p.id⟩

/-- A sequence of API operations evolves the store. -/
theorem run_ops_evolves (ops : List Op) : ∀ st : Store, StoreEvolves st (run_ops st ops) := by
  induction ops with
  | nil => exact fun st => storeEvolves_refl st
  | cons op ops ih =>
    intro st
    exact storeEvolves_trans (apply_op_evolves st op) (ih (apply_op st op))

/-- C5: across every sequence of API operations (list, create, get,
delete), no `Team`, `ApiKey` or `Post` row is ever physically removed —
the team and key tables are untouched and the posts table never shrinks —
and every post row survives with all its columns unchanged except
`deleted`, which once true is never reset to false (there is no undelete:
the only write paths are the insert of `posts.py:159` and the
`deleted = True` of `posts.py:299`). -/
theorem c5_soft_delete_monotone (st : Store) (ops : List Op) :
    (run_ops st ops).teams = st.teams ∧
    (run_ops st ops).api_keys = st.api_keys ∧
    st.posts.length ≤ (run_ops st ops).posts.length ∧
    ∀ p ∈ st.posts, ∃ q ∈ (run_ops st ops).posts,
      q.id = p.id ∧ q.team_id = p.team_id ∧ q.author_name = p.author_name ∧
      q.content = p.content ∧ q.tags = p.tags ∧ q.timestamp = p.timestamp ∧
      q.parent_post_id = p.parent_post_id ∧ (p.deleted = true → q.deleted = true) :=
  run_ops_evolves ops st

/-- C5 witness: across a concrete delete/get/create/list sequence on the
concrete store, team A's post survives every column intact with `deleted`
only able to rise. -/
theorem c5_soft_delete_monotone_witness :
    ∃ q ∈ (run_ops baseStore
        [Op.delete hdrA (lit "teamA") (lit "post-a-id"),
         Op.get hdrA (lit "teamA") (lit "post-a-id"),
         Op.create hdrA (lit "teamA") validBody (lit "another-id") 50,
         Op.list hdrA (lit "teamA") 10 0]).posts,
      q.id = postA.id ∧ q.team_id = postA.team_id ∧ q.author_name = postA.author_name ∧
      q.content = postA.content ∧ q.tags = postA.tags ∧ q.timestamp = postA.timestamp ∧
      q.parent_post_id = postA.parent_post_id ∧
      (postA.deleted = true → q.deleted = true) :=
  (c5_soft_delete_monotone baseStore
      [Op.delete hdrA (lit "teamA") (lit "post-a-id"),
       Op.get hdrA (lit "teamA") (lit "post-a-id"),
       Op.create hdrA (lit "teamA") validBody (lit "another-id") 50,
       Op.list hdrA (lit "teamA") 10 0]).2.2.2 postA (by decide)

/-- Membership in `insertDesc`: the inserted post plus the old members. -/
theorem mem_insertDesc {x p : Post} {l : List Post} :
    x ∈ insertDesc p l ↔ x = p ∨ x ∈ l := by
  induction l with
  | nil => simp [insertDesc]
  | cons q qs ih =>
    unfold insertDesc
    split <;> simp [ih] <;> tauto

/-- Sorting by timestamp preserves membership. -/
theorem mem_sortByTimestampDesc {x : Post} {l : List Post} :
    x ∈ sortByTimestampDesc l ↔ x ∈ l := by
  induction l with
  | nil => simp [sortByTimestampDesc]
  | cons q qs ih => simp [sortByTimestampDesc, mem_insertDesc, ih]

/-- C1: whatever team the middleware authenticates a request as, a post
owned by a different team is unreachable through it: `get_post` and
`delete_post` on its id answer the 404 not-found error (their queries at
`posts.py:229` and `posts.py:289` require `Post.team_id` to equal the
authenticated team's id) and the list page query of `posts.py:63-71`
never contains it; requests whose key belongs to a team other than the
path's team are already rejected 403 at the path-check stage
(`auth.py:119`, claim C6).  `huniq` encodes that `Post.id` is the table's
primary key (`models.py:34`). -/
theorem c1_cross_team_isolation (st : Store) (authorization : Option Str)
    (team : Str) (auth : AuthenticatedRequest) (p : Post) (limit offset : Nat)
    (hauth : require_team_access st authorization team = .ok auth)
    (hp : p ∈ st.posts)
    (hother : p.team_id ≠ auth.team_id)
    (huniq : ∀ q ∈ st.posts, q.id = p.id → q = p) :
    get_post st authorization team p.id = .error (.postNotFound p.id team) ∧
    delete_post st authorization team p.id = .error (.postNotFound p.id team) ∧
    p ∉ posts_page st auth.team_id limit offset ∧
    (render_error (.postNotFound p.id team)).status = 404 := by
  have hfind : find_post st p.id auth.team_id = Option.none := by
    unfold find_post
    rw [List.find?_eq_none]
    intro q hq hpred
    simp only [Bool.and_eq_true, beq_iff_eq, Bool.not_eq_true'] at hpred
    obtain ⟨⟨hid, hteam⟩, hdel⟩ := hpred
    rw [huniq q hq hid] at hteam
    exact hother hteam
  refine ⟨?_, ?_, ?_, rfl⟩
  · simp [get_post, Except.bind, bind, hauth, hfind]
  · simp [delete_post, Except.bind, bind, hauth, hfind]
  · intro hmem
    unfold posts_page at hmem
    have h2 := List.mem_of_mem_drop (List.mem_of_mem_take hmem)
    rw [mem_sortByTimestampDesc] at h2
    have h3 := (List.mem_filter.mp h2).2
    simp only [Bool.and_eq_true, beq_iff_eq] at h3
    exact hother h3.1

/-- C1 witness: team A's post, addressed by its known id through team B's
valid credentials on team B's own path, is not gettable, not deletable
and not listed. -/
theorem c1_cross_team_isolation_witness :
    get_post baseStore hdrB (lit "teamB") (lit "post-a-id")
      = .error (.postNotFound (lit "post-a-id") (lit "teamB")) ∧
    delete_post baseStore hdrB (lit "teamB") (lit "post-a-id")
      = .error (.postNotFound (lit "post-a-id") (lit "teamB")) ∧
    postA ∉ posts_page baseStore (lit "team-b-id") 10 0 :=
  have h := c1_cross_team_isolation baseStore hdrB (lit "teamB")
    { team_id := lit "team-b-id", team_name := lit "teamB", api_key := lit "beta-key-0002" }
    postA 10 0 rfl (by decide) (by decide) (by decide)
  ⟨h.1, h.2.1, h.2.2.1⟩

end MCPSocial
